import Mathlib

/-!
Verification of the `prefect.utilities.dispatch` type-dispatch registry and of
the constrained-filter validation rules exercised by
`tests/orion/schemas/test_filters.py`.

The dispatch module is embedded shallowly: Python classes become `PyType`
values carrying an identity, a method-resolution order (a list of type
identities) and the value of their `__dispatch_key__` attribute; Python dicts
become association lists with dict update semantics (`dictGet` / `dictSet`);
the process-wide `_TYPE_REGISTRIES` dict becomes an explicit state threaded
through the registration functions; raised exceptions become `Except` errors
tagged with the Python exception class that is raised.
-/

namespace PrefectDispatch

/-- A Python dict lookup: first (and only, since keys are unique) binding for
a key, `none` when absent. Mirrors `d.get(k)`. -/
def dictGet {α β : Type} [DecidableEq α] : List (α × β) → α → Option β
  | [], _ => none
  | (k', v) :: rest, k => if k' = k then some v else dictGet rest k

/-- A Python dict update `d[k] = v`: replaces the binding in place when the
key is present, appends it otherwise. -/
def dictSet {α β : Type} [DecidableEq α] : List (α × β) → α → β → List (α × β)
  | [], k, v => [(k, v)]
  | (k', v') :: rest, k, v =>
      if k' = k then (k, v) :: rest else (k', v') :: dictSet rest k v

/-- The value of a Python `__dispatch_key__` attribute, as far as
`get_dispatch_key` can observe it: `None`, a string, a callable (calling it
yields `ret`), or any other non-callable non-string object. -/
inductive PyVal where
  | vnone : PyVal
  | vstr : String → PyVal
  | vcallable : PyVal → PyVal
  | vother : PyVal
deriving DecidableEq, Repr

/-- A Python class as seen by the dispatch module: an identity, a name, its
method-resolution order `cls.mro()` (a list of type identities, which in
Python always begins with the class itself), and its `__dispatch_key__`
attribute (`none` when the attribute is absent). -/
structure PyType where
  id : Nat
  name : String
  mro : List Nat
  dkey : Option PyVal
deriving DecidableEq, Repr

/-- The Python exception raised by a dispatch operation, tagged by exception
class. `valueError` covers the missing-dispatch-key and
registry-not-found `ValueError`s; `typeError` the non-string dispatch key;
`keyError` the failed subregistry lookup; `attributeError` the
`NoneType has no attribute` crash. -/
inductive DispatchErr where
  | valueError : String → DispatchErr
  | typeError : String → DispatchErr
  | keyError : String → DispatchErr
  | attributeError : DispatchErr
deriving DecidableEq, Repr

/-- `keyError` is the only dispatch error that is a Python `LookupError`
(`KeyError` subclasses `LookupError`; `AttributeError`, `ValueError` and
`TypeError` do not). -/
def DispatchErr.isLookupError : DispatchErr → Bool
  | .keyError _ => true
  | _ => false

instance {ε α : Type} [DecidableEq ε] [DecidableEq α] : DecidableEq (Except ε α) :=
  fun x y =>
    match x, y with
    | .ok a, .ok b =>
        if h : a = b then .isTrue (by rw [h]) else .isFalse (by simp [h])
    | .error a, .error b =>
        if h : a = b then .isTrue (by rw [h]) else .isFalse (by simp [h])
    | .ok _, .error _ => .isFalse (by simp)
    | .error _, .ok _ => .isFalse (by simp)

/-- One call of Python `callable`-then-invoke: `if callable(x): x = x()`. -/
def resolveCallable : PyVal → PyVal
  | .vcallable ret => ret
  | v => v

/-- Embedding of `get_dispatch_key(cls_or_instance, allow_missing)`.
`attr` is `getattr(cls_or_instance, "__dispatch_key__", None)` before the
default is applied (`none` = attribute absent), `typeName` the class name used
in error messages. Returns the key (`some s`), `none` for a permitted missing
key, or the raised exception. -/
def get_dispatch_key (attr : Option PyVal) (allow_missing : Bool)
    (typeName : String) : Except DispatchErr (Option String) :=
  let dispatch_key := attr.getD .vnone
  if dispatch_key = .vnone then
    if allow_missing then .ok none
    else .error (.valueError typeName)
  else
    let dk := resolveCallable dispatch_key
    if allow_missing ∧ dk = .vnone then .ok none
    else
      match dk with
      | .vstr s => .ok (some s)
      | _ => .error (.typeError typeName)

/-- A subregistry: the Python dict from dispatch key to registered class,
classes represented by their identity. -/
abbrev SubRegistry := List (String × Nat)

/-- The process-wide `_TYPE_REGISTRIES` dict, keyed by type identity. -/
abbrev TypeRegistries := List (Nat × SubRegistry)

/-- Embedding of `get_registry_for_type`: the first non-`None`
`_TYPE_REGISTRIES.get(c)` over the given method-resolution order. -/
def get_registry_for_type (st : TypeRegistries) : List Nat → Option SubRegistry
  | [] => none
  | c :: rest =>
      match dictGet st c with
      | some registry => some registry
      | none => get_registry_for_type st rest

/-- The identity of the class owning the subregistry that
`get_registry_for_type` finds: needed to express the in-place mutation of
that (aliased) dict in a functional state. -/
def registryOwner (st : TypeRegistries) : List Nat → Option Nat
  | [] => none
  | c :: rest =>
      if (dictGet st c).isSome then some c else registryOwner st rest

/-- Embedding of `register_base_type(cls)`: `setdefault` a subregistry for
`cls`, resolve the optional dispatch key, insert `cls` under it when present.
Returns the updated `_TYPE_REGISTRIES` state together with the returned class
or raised exception. The `setdefault` mutation happens before
`get_dispatch_key` can raise, exactly as in the source. -/
def register_base_type (st : TypeRegistries) (cls : PyType) :
    TypeRegistries × Except DispatchErr PyType :=
  let registry := (dictGet st cls.id).getD []
  let st1 := match dictGet st cls.id with
             | some _ => st
             | none => dictSet st cls.id []
  match get_dispatch_key cls.dkey true cls.name with
  | .error e => (st1, .error e)
  | .ok none => (st1, .ok cls)
  | .ok (some base_key) =>
      (dictSet st1 cls.id (dictSet registry base_key cls.id), .ok cls)

/-- Embedding of `register_type(cls)`: find the first ancestor subregistry,
raise `ValueError` when there is none, then insert `cls` under its (required)
dispatch key into that subregistry. The `.ok none` branch is unreachable
(`get_dispatch_key` with `allow_missing = false` never returns a missing
key, see `get_dispatch_key_false_ne_ok_none`). -/
def register_type (st : TypeRegistries) (cls : PyType) :
    TypeRegistries × Except DispatchErr PyType :=
  match registryOwner st cls.mro with
  | none => (st, .error (.valueError cls.name))
  | some owner =>
      match get_dispatch_key cls.dkey false cls.name with
      | .error e => (st, .error e)
      | .ok none => (st, .ok cls)
      | .ok (some k) =>
          let registry := (dictGet st owner).getD []
          (dictSet st owner (dictSet registry k cls.id), .ok cls)

/-- Embedding of `lookup_type(cls, dispatch_key)`. When no ancestor has a
subregistry, `get_registry_for_type` returns `None` and `registry.get(...)`
raises `AttributeError`; when the key is absent the source raises `KeyError`. -/
def lookup_type (st : TypeRegistries) (cls : PyType) (dispatch_key : String) :
    Except DispatchErr Nat :=
  match get_registry_for_type st cls.mro with
  | none => .error .attributeError
  | some registry =>
      match dictGet registry dispatch_key with
      | some subcls => .ok subcls
      | none => .error (.keyError dispatch_key)

/-- The `MissingDispatchKeyError` and `RegistryNotFoundError` of the spec are
the `ValueError`s raised by the dispatch module; this recognizes that
exception class. -/
def DispatchErr.isValueError : DispatchErr → Bool
  | .valueError _ => true
  | _ => false

/-- C3 counterexample: with an empty registry no ancestor of `B` has a
subregistry, and `lookup_type` fails — but with an `AttributeError` (the
source calls `.get` on the `None` returned by `get_registry_for_type`),
which is not a `NotFoundError`-kind lookup error (`KeyError`). -/
theorem C3_counterexample :
    lookup_type ([] : TypeRegistries) ⟨0, "B", [0], none⟩ "k"
      = .error .attributeError ∧
    DispatchErr.attributeError.isLookupError = false := by decide

/-- C3 (amended): `lookup_type B key` fails in exactly two cases, but with
two different exception classes: with an `AttributeError` (not a lookup
error) when no ancestor of `B` has a subregistry, and with a `KeyError`
lookup error when `key` is absent from the first ancestor subregistry found;
otherwise it returns the stored type. -/
theorem C3_lookup_type_cases (st : TypeRegistries) (cls : PyType) (key : String) :
    (get_registry_for_type st cls.mro = none →
      lookup_type st cls key = .error .attributeError) ∧
    (∀ reg, get_registry_for_type st cls.mro = some reg →
      (dictGet reg key = none →
        lookup_type st cls key = .error (.keyError key)) ∧
      (∀ t, dictGet reg key = some t → lookup_type st cls key = .ok t)) ∧
    (DispatchErr.keyError key).isLookupError = true ∧
    DispatchErr.attributeError.isLookupError = false := by
  refine ⟨fun h => by simp [lookup_type, h], fun reg h => ?_, rfl, rfl⟩
  exact ⟨fun h2 => by simp [lookup_type, h, h2],
    fun t h2 => by simp [lookup_type, h, h2]⟩

/-- C3 witness: the three branches at concrete inputs — empty registry,
registered base with an absent key, registered base with a present key. -/
theorem C3_witness :
    lookup_type ([] : TypeRegistries) ⟨0, "C", [0], none⟩ "k"
      = .error .attributeError ∧
    lookup_type [(0, [("x", 5)])] ⟨0, "C", [0], none⟩ "k"
      = .error (.keyError "k") ∧
    lookup_type [(0, [("x", 5)])] ⟨0, "C", [0], none⟩ "x" = .ok 5 :=
  ⟨(C3_lookup_type_cases [] ⟨0, "C", [0], none⟩ "k").1 (by decide),
   ((C3_lookup_type_cases [(0, [("x", 5)])] ⟨0, "C", [0], none⟩ "k").2.1
      [("x", 5)] (by decide)).1 (by decide),
   ((C3_lookup_type_cases [(0, [("x", 5)])] ⟨0, "C", [0], none⟩ "x").2.1
      [("x", 5)] (by decide)).2 5 (by decide)⟩

/-- C4 counterexample: a fresh base type whose `__dispatch_key__` is a
non-string object. `register_base_type` raises a `TypeError`, yet the
registry state is no longer what it was before the call: the `setdefault`
has already created an empty subregistry. -/
theorem C4_counterexample :
    (register_base_type [] ⟨0, "Bad", [0], some .vother⟩).2
      = .error (.typeError "Bad") ∧
    (register_base_type [] ⟨0, "Bad", [0], some .vother⟩).1
      ≠ ([] : TypeRegistries) := by decide

/-- C4 (amended): a failing `register_type` call leaves the registry state
exactly as it was; a failing `register_base_type` call leaves every existing
subregistry unchanged but — because `setdefault` runs before the dispatch
key is checked — may have created a fresh empty subregistry for its argument
(the state after failure is exactly the `setdefault` of the old state). -/
theorem C4_failed_registration_state (st : TypeRegistries) (cls : PyType)
    (e e' : DispatchErr) :
    ((register_type st cls).2 = .error e → (register_type st cls).1 = st) ∧
    ((register_base_type st cls).2 = .error e' →
      (register_base_type st cls).1 =
        match dictGet st cls.id with
        | some _ => st
        | none => dictSet st cls.id []) := by
  constructor
  · intro he
    rcases ho : registryOwner st cls.mro with _ | owner
    · simp [register_type, ho]
    · rcases hk : get_dispatch_key cls.dkey false cls.name with er | ko
      · simp [register_type, ho, hk]
      · rcases ko with _ | k
        · simp [register_type, ho, hk]
        · simp [register_type, ho, hk] at he
  · intro he
    rcases hk : get_dispatch_key cls.dkey true cls.name with er | ko
    · rcases hd : dictGet st cls.id with _ | r <;>
        simp [register_base_type, hk, hd]
    · rcases ko with _ | k
      · simp [register_base_type, hk] at he
      · simp [register_base_type, hk] at he

/-- C4 witness: `register_type` failing on an unregistered type leaves the
concrete state untouched; `register_base_type` failing on a fresh type with
a non-string key leaves exactly the newly created empty subregistry. -/
theorem C4_witness :
    (register_type [(5, [("a", 5)])] ⟨0, "S", [0], none⟩).1 = [(5, [("a", 5)])] ∧
    (register_base_type [(5, [("a", 5)])] ⟨0, "Bad", [0], some .vother⟩).1
      = [(5, [("a", 5)]), (0, [])] :=
  ⟨(C4_failed_registration_state [(5, [("a", 5)])] ⟨0, "S", [0], none⟩
      (.valueError "S") (.typeError "Bad")).1 (by decide),
   (C4_failed_registration_state [(5, [("a", 5)])] ⟨0, "Bad", [0], some .vother⟩
      (.valueError "S") (.typeError "Bad")).2 (by decide)⟩

/-- C5 counterexample: a class whose `__dispatch_key__` is a callable
returning `None`. The resolved dispatch key is null and `allow_missing` is
false, yet `get_dispatch_key` raises the non-string-key `TypeError`, not the
missing-key `ValueError` (`MissingDispatchKeyError`). -/
theorem C5_counterexample :
    get_dispatch_key (some (.vcallable .vnone)) false "T"
      = .error (.typeError "T") ∧
    (DispatchErr.typeError "T").isValueError = false := by decide

/-- C5 (amended): when the `__dispatch_key__` attribute itself is absent or
null, `get_dispatch_key` raises the missing-key `ValueError` if
`allow_missing` is false; when the attribute is a callable that resolves to
null, it instead raises the non-string-key `TypeError` if `allow_missing` is
false. In every case where the resolved key is null and `allow_missing` is
true, it returns null. -/
theorem C5_get_dispatch_key_null_cases (attr : Option PyVal) (name : String)
    (v : PyVal) :
    (resolveCallable (attr.getD .vnone) = .vnone →
      get_dispatch_key attr true name = .ok none) ∧
    (attr.getD .vnone = .vnone →
      get_dispatch_key attr false name = .error (.valueError name)) ∧
    (attr = some v → v ≠ .vnone → resolveCallable v = .vnone →
      get_dispatch_key attr false name = .error (.typeError name)) := by
  refine ⟨?_, ?_, ?_⟩
  · intro h
    rcases attr with _ | w
    · simp [get_dispatch_key, Option.getD]
    · rcases w with _ | s | r | _
      · simp [get_dispatch_key, Option.getD]
      · simp [resolveCallable, Option.getD] at h
      · simp [resolveCallable, Option.getD] at h
        simp [get_dispatch_key, Option.getD, resolveCallable, h]
      · simp [resolveCallable, Option.getD] at h
  · intro h
    rcases attr with _ | w
    · simp [get_dispatch_key, Option.getD]
    · simp [Option.getD] at h
      simp [get_dispatch_key, Option.getD, h]
  · intro ha hv h
    subst ha
    rcases v with _ | s | r | _
    · exact absurd rfl hv
    · simp [resolveCallable] at h
    · simp [resolveCallable] at h
      simp [get_dispatch_key, Option.getD, resolveCallable, h]
    · simp [resolveCallable] at h

/-- C5 witness: attribute absent (missing-key `ValueError` / null), and a
callable attribute resolving to null (`TypeError` / null). -/
theorem C5_witness :
    get_dispatch_key none true "T" = .ok none ∧
    get_dispatch_key none false "T" = .error (.valueError "T") ∧
    get_dispatch_key (some (.vcallable .vnone)) true "T" = .ok none ∧
    get_dispatch_key (some (.vcallable .vnone)) false "T"
      = .error (.typeError "T") :=
  ⟨(C5_get_dispatch_key_null_cases none "T" .vnone).1 (by decide),
   (C5_get_dispatch_key_null_cases none "T" .vnone).2.1 (by decide),
   (C5_get_dispatch_key_null_cases (some (.vcallable .vnone)) "T"
      (.vcallable .vnone)).1 (by decide),
   (C5_get_dispatch_key_null_cases (some (.vcallable .vnone)) "T"
      (.vcallable .vnone)).2.2 rfl (by decide) (by decide)⟩

end PrefectDispatch

namespace PrefectFilters

/-- A validation failure raised while constructing a filter object, carrying
the pydantic error message. -/
inductive ValidationErr where
  | validationError : String → ValidationErr
deriving DecidableEq, Repr

/-- The message of the at-least-one-operator rule, as matched by
`test_filters_must_provide_at_least_one_operator`. -/
def atLeastOneMsg : String :=
  "Prefect Filter must have at least one operator with arguments"

/-- Modelled from the spec: the production filter schema classes
(`prefect.orion.schemas.filters`) are not under `src/`, only their tests are.
The base-model rule — "if every recognized constraint field is null/absent,
fail with `ValidationError` stating the object must have at least one operator
with arguments" — is modelled over the list of is-set flags of the
constraint fields of a concrete filter type. -/
def at_least_one_operator (fields_set : List Bool) : Except ValidationErr Unit :=
  if fields_set.all (fun b => !b) then .error (.validationError atLeastOneMsg)
  else .ok ()

/-- A filter value with two optional integer constraint fields, the shape of
`MyNewFilter` in the tests. -/
structure MyNewFilter where
  foo_ : Option Int
  bar_ : Option Int
deriving DecidableEq, Repr

/-- Modelled from the spec: construction of a plain
`PrefectFilterBaseModel` subclass with constraint fields `foo_` and `bar_`
applies only the at-least-one-operator rule. -/
def mk_my_new_filter (foo_ bar_ : Option Int) : Except ValidationErr MyNewFilter :=
  match at_least_one_operator [foo_.isSome, bar_.isSome] with
  | .error e => .error e
  | .ok _ => .ok ⟨foo_, bar_⟩

/-- A time-range filter value: the shape of `FlowRunFilterStartTime` and its
siblings, with timestamps modelled as integers (pendulum datetimes are
totally ordered; only their order matters to the rule). -/
structure TimeFilter where
  before_ : Option Int
  after_ : Option Int
deriving DecidableEq, Repr

/-- Modelled from the spec: construction of a filter type declaring a
`before_`/`after_` timestamp pair applies the base at-least-one-operator rule
and the ordered-range rule — "fail with `ValidationError` if both are set and
before < after (strict); equal bounds are permitted" — with the message
matched by `test_time_filters_before_must_be_greater_than_after`. -/
def mk_time_filter (name : String) (before_ after_ : Option Int) :
    Except ValidationErr TimeFilter :=
  match at_least_one_operator [before_.isSome, after_.isSome] with
  | .error e => .error e
  | .ok _ =>
      match before_, after_ with
      | some b, some a =>
          if b < a then
            .error (.validationError
              (s!"Cannot provide Prefect Filter {name} where before_ is less than after_"))
          else .ok ⟨before_, after_⟩
      | _, _ => .ok ⟨before_, after_⟩

/-- A filter value declaring an inclusion-list operator (`all_` or `any_`,
which one is recorded only in the error message) and an `is_null_` flag: the
shape of `FlowFilterTags`, `FlowRunFilterDeploymentIds` and their siblings,
with list elements modelled as strings. -/
structure InclusionFilter where
  incl : Option (List String)
  is_null_ : Option Bool
deriving DecidableEq, Repr

/-- Modelled from the spec: construction of a filter type declaring both an
inclusion-list operator and an is-null flag applies the base
at-least-one-operator rule and the exclusivity rule — "fail with
`ValidationError` if both are simultaneously set (is-null is true/non-null
AND the inclusion operator is non-null), regardless of whether the inclusion
list is empty" — with the message matched by the tests. `opName` is the
field name of the inclusion operator (`all_` or `any_`). -/
def mk_inclusion_filter (name opName : String) (incl : Option (List String))
    (is_null_ : Option Bool) : Except ValidationErr InclusionFilter :=
  match at_least_one_operator [incl.isSome, is_null_.isSome] with
  | .error e => .error e
  | .ok _ =>
      if incl.isSome ∧ is_null_.isSome then
        .error (.validationError
          (s!"Cannot provide Prefect Filter {name} {opName} with is_null_ = True"))
      else .ok ⟨incl, is_null_⟩

end PrefectFilters

namespace PrefectDispatch

theorem dictGet_dictSet_self {α β : Type} [DecidableEq α]
    (d : List (α × β)) (k : α) (v : β) : dictGet (dictSet d k v) k = some v := by
  induction d with
  | nil => simp [dictGet, dictSet]
  | cons hd tl ih =>
      obtain ⟨k', v'⟩ := hd
      by_cases h : k' = k
      · simp [dictGet, dictSet, h]
      · simp [dictGet, dictSet, h, ih]

theorem dictGet_dictSet_ne {α β : Type} [DecidableEq α]
    (d : List (α × β)) (k k' : α) (v : β) (h : k ≠ k') :
    dictGet (dictSet d k v) k' = dictGet d k' := by
  induction d with
  | nil => simp [dictGet, dictSet, h]
  | cons hd tl ih =>
      obtain ⟨k₀, v₀⟩ := hd
      by_cases h₀ : k₀ = k
      · simp [dictGet, dictSet, h₀, h]
      · simp only [dictSet, if_neg h₀]
        by_cases h₁ : k₀ = k'
        · simp [dictGet, h₁]
        · simp [dictGet, h₁, ih]

theorem dictSet_eq_of_dictGet {α β : Type} [DecidableEq α]
    (d : List (α × β)) (k : α) (v : β) (h : dictGet d k = some v) :
    dictSet d k v = d := by
  induction d with
  | nil => simp [dictGet] at h
  | cons hd tl ih =>
      obtain ⟨k', v'⟩ := hd
      by_cases h₀ : k' = k
      · simp [dictGet, h₀] at h
        simp [dictSet, h₀, h]
      · simp [dictGet, h₀] at h
        simp [dictSet, h₀, ih h]

theorem registryOwner_isSome (st : TypeRegistries) (mro : List Nat) (o : Nat)
    (h : registryOwner st mro = some o) : (dictGet st o).isSome := by
  induction mro with
  | nil => simp [registryOwner] at h
  | cons c rest ih =>
      by_cases hc : (dictGet st c).isSome
      · simp [registryOwner, hc] at h
        exact h ▸ hc
      · simp [registryOwner, hc] at h
        exact ih h

theorem get_registry_eq_owner_bind (st : TypeRegistries) (mro : List Nat) :
    get_registry_for_type st mro = (registryOwner st mro).bind (dictGet st) := by
  induction mro with
  | nil => simp [get_registry_for_type, registryOwner]
  | cons c rest ih =>
      rcases hc : dictGet st c with _ | r
      · simp [get_registry_for_type, registryOwner, hc, ih]
      · simp [get_registry_for_type, registryOwner, hc]

theorem get_dispatch_key_false_ne_ok_none (attr : Option PyVal)
    (typeName : String) : get_dispatch_key attr false typeName ≠ .ok none := by
  rcases attr with _ | v
  · simp [get_dispatch_key, Option.getD]
  · rcases v with _ | s | r | _
    · simp [get_dispatch_key, Option.getD]
    · simp [get_dispatch_key, Option.getD, resolveCallable]
    · rcases r with _ | s | r₂ | _ <;>
        simp [get_dispatch_key, Option.getD, resolveCallable]
    · simp [get_dispatch_key, Option.getD, resolveCallable]

theorem lookup_after_insert (st : TypeRegistries) (B : PyType) (reg : SubRegistry)
    (k : String) (v : Nat) (rest : List Nat) (hmro : B.mro = B.id :: rest) :
    lookup_type (dictSet st B.id (dictSet reg k v)) B k = .ok v := by
  have hB := dictGet_dictSet_self st B.id (dictSet reg k v)
  have hreg : get_registry_for_type (dictSet st B.id (dictSet reg k v)) B.mro
      = some (dictSet reg k v) := by
    rw [hmro]
    simp [get_registry_for_type, hB]
  simp [lookup_type, hreg, dictGet_dictSet_self]

/-- C6 (confirmed): for every type `S` such that no ancestor of `S` (`S`
itself included) has a subregistry, `register_type S` raises the
registry-not-found `ValueError` and leaves the registry state — in
particular the absence of a subregistry for `S` — entirely unchanged. -/
theorem C6_register_type_unregistered_ancestor (st : TypeRegistries)
    (cls : PyType) (h : get_registry_for_type st cls.mro = none) :
    register_type st cls = (st, .error (.valueError cls.name)) ∧
    (DispatchErr.valueError cls.name).isValueError = true := by
  have hown : registryOwner st cls.mro = none := by
    rcases ho : registryOwner st cls.mro with _ | o
    · rfl
    · have hs := registryOwner_isSome st cls.mro o ho
      rw [get_registry_eq_owner_bind, ho] at h
      simp at h
      rw [h] at hs
      simp at hs
  exact ⟨by simp [register_type, hown], rfl⟩

/-- C6 witness: a type whose whole method-resolution order is missing from
the (empty) registry. -/
theorem C6_witness :
    register_type ([] : TypeRegistries) ⟨0, "S", [0, 1], none⟩
      = ([], .error (.valueError "S")) ∧
    (DispatchErr.valueError "S").isValueError = true :=
  C6_register_type_unregistered_ancestor [] ⟨0, "S", [0, 1], none⟩ (by decide)

/-- C10 (confirmed): when `B` is the first class in `S`'s method-resolution
order with a subregistry (and `B`'s own MRO begins with `B`, as every Python
MRO does), `lookup_type S k` and `lookup_type B k` consult the same
subregistry and return the same result for every key `k` — even though `S`
has no subregistry of its own. -/
theorem C10_lookup_through_first_registered_base (st : TypeRegistries)
    (S B : PyType) (k : String) (rest : List Nat)
    (howner : registryOwner st S.mro = some B.id)
    (hmro : B.mro = B.id :: rest) :
    lookup_type st S k = lookup_type st B k := by
  have hsome := registryOwner_isSome st S.mro B.id howner
  rcases hreg : dictGet st B.id with _ | reg
  · rw [hreg] at hsome
    simp at hsome
  · have h1 : get_registry_for_type st S.mro = some reg := by
      rw [get_registry_eq_owner_bind, howner]
      simp [hreg]
    have h2 : get_registry_for_type st B.mro = some reg := by
      rw [hmro]
      simp [get_registry_for_type, hreg]
    simp [lookup_type, h1, h2]

/-- C10 witness: `S` (id 1) piggybacks on registered base `B` (id 0); lookup
through either class agrees, both on a registered key and on the result
value. -/
theorem C10_witness :
    lookup_type [(0, [("x", 7)])] ⟨1, "S", [1, 0], none⟩ "x"
      = lookup_type [(0, [("x", 7)])] ⟨0, "B", [0], none⟩ "x" ∧
    lookup_type [(0, [("x", 7)])] ⟨1, "S", [1, 0], none⟩ "x" = .ok 7 :=
  ⟨C10_lookup_through_first_registered_base [(0, [("x", 7)])]
      ⟨1, "S", [1, 0], none⟩ ⟨0, "B", [0], none⟩ "x" [] (by decide) (by decide),
   by decide⟩

/-- C1 counterexample: `S` (id 2) is a subtype of the base `B` (id 0), `B`
has a subregistry, and `S` has dispatch key `"s"`; but an intermediate base
(id 1) closer to `S` also has a subregistry, so `register_type S` (which
succeeds and returns `S`) inserts into the intermediate subregistry and the
subsequent `lookup_type B "s"` does not return `S`. -/
theorem C1_counterexample :
    (dictGet ([(0, []), (1, [])] : TypeRegistries) 0).isSome = true ∧
    (0 : Nat) ∈ ([2, 1, 0] : List Nat) ∧
    get_dispatch_key (some (.vstr "s")) false "S" = .ok (some "s") ∧
    (register_type [(0, []), (1, [])] ⟨2, "S", [2, 1, 0], some (.vstr "s")⟩).2
      = .ok ⟨2, "S", [2, 1, 0], some (.vstr "s")⟩ ∧
    lookup_type
      (register_type [(0, []), (1, [])] ⟨2, "S", [2, 1, 0], some (.vstr "s")⟩).1
      ⟨0, "B", [0], none⟩ "s" ≠ .ok 2 := by decide

/-- C1 (amended): the claim holds once `B` is the *first* class in `S`'s
method-resolution order with a subregistry (rather than an arbitrary base of
`S` with one): if `S`'s dispatch key resolves to `k`, then `register_type S`
returns `S` unchanged and inserts `S` into `B`'s subregistry, so that a
subsequent `lookup_type B k` returns `S`. -/
theorem C1_register_type_then_lookup (st : TypeRegistries) (S B : PyType)
    (k : String) (rest : List Nat)
    (howner : registryOwner st S.mro = some B.id)
    (hmro : B.mro = B.id :: rest)
    (hk : get_dispatch_key S.dkey false S.name = .ok (some k)) :
    lookup_type (register_type st S).1 B k = .ok S.id ∧
    (register_type st S).2 = .ok S := by
  have hsome := registryOwner_isSome st S.mro B.id howner
  rcases hreg : dictGet st B.id with _ | reg
  · rw [hreg] at hsome
    simp at hsome
  · have hst : (register_type st S).1 = dictSet st B.id (dictSet reg k S.id) := by
      simp [register_type, howner, hk, hreg]
    have hret : (register_type st S).2 = .ok S := by
      simp [register_type, howner, hk]
    refine ⟨?_, hret⟩
    rw [hst]
    exact lookup_after_insert st B reg k S.id rest hmro

/-- C1 witness: a single registered base (id 0) and a fresh subtype (id 1)
with dispatch key `"s"`. -/
theorem C1_witness :
    lookup_type (register_type [(0, [])] ⟨1, "S", [1, 0], some (.vstr "s")⟩).1
      ⟨0, "B", [0], none⟩ "s" = .ok 1 ∧
    (register_type [(0, [])] ⟨1, "S", [1, 0], some (.vstr "s")⟩).2
      = .ok ⟨1, "S", [1, 0], some (.vstr "s")⟩ :=
  C1_register_type_then_lookup [(0, [])] ⟨1, "S", [1, 0], some (.vstr "s")⟩
    ⟨0, "B", [0], none⟩ "s" [] (by decide) (by decide) (by decide)

theorem register_base_type_second_call (st' : TypeRegistries) (B : PyType)
    (reg : SubRegistry) (h2 : dictGet st' B.id = some reg)
    (hkey : ∀ k, get_dispatch_key B.dkey true B.name = .ok (some k) →
      dictGet reg k = some B.id) :
    (register_base_type st' B).1 = st' := by
  rcases hk : get_dispatch_key B.dkey true B.name with er | ko
  · simp [register_base_type, hk, h2]
  · rcases ko with _ | k'
    · simp [register_base_type, hk, h2]
    · have h3 := hkey k' hk
      have h4 : dictSet reg k' B.id = reg := dictSet_eq_of_dictGet _ _ _ h3
      have h5 : dictSet st' B.id reg = st' := dictSet_eq_of_dictGet _ _ _ h2
      simp [register_base_type, hk, h2, h4]
      exact h5

/-- C2 counterexample: a base type whose `__dispatch_key__` is a non-string
object. `register_base_type` does not return its input unchanged — it raises
a `TypeError` — so the unconditional pass-through part of the claim fails. -/
theorem C2_counterexample :
    (register_base_type [] ⟨0, "Bad", [0], some .vother⟩).2
      ≠ .ok ⟨0, "Bad", [0], some .vother⟩ ∧
    (register_base_type [] ⟨0, "Bad", [0], some .vother⟩).2
      = .error (.typeError "Bad") := by decide

/-- C2 (amended): the claim holds for every base type whose
`__dispatch_key__` resolves to null or to a string (only a non-string key
makes `register_base_type` raise instead of returning its input). When the
key resolves to the string `k`, `register_base_type` returns `B` unchanged
and inserts `B` into `B`'s own subregistry, so `lookup_type B k` returns
`B`; when the key is missing, it returns `B` unchanged and the subregistry
created for a fresh `B` is empty; and for any `B` a repeated call leaves the
registry state exactly as after the first call (same subregistry reused). -/
theorem C2_register_base_type_spec (st : TypeRegistries) (B : PyType)
    (k : String) (rest : List Nat) (hmro : B.mro = B.id :: rest) :
    (get_dispatch_key B.dkey true B.name = .ok (some k) →
      (register_base_type st B).2 = .ok B ∧
      lookup_type (register_base_type st B).1 B k = .ok B.id) ∧
    (get_dispatch_key B.dkey true B.name = .ok none →
      (register_base_type st B).2 = .ok B ∧
      (dictGet st B.id = none →
        dictGet (register_base_type st B).1 B.id = some [])) ∧
    (register_base_type (register_base_type st B).1 B).1
      = (register_base_type st B).1 := by
  refine ⟨?_, ?_, ?_⟩
  · intro hk
    refine ⟨by simp [register_base_type, hk], ?_⟩
    rcases hd : dictGet st B.id with _ | r
    · have hst : (register_base_type st B).1
          = dictSet (dictSet st B.id []) B.id (dictSet [] k B.id) := by
        simp [register_base_type, hk, hd]
      rw [hst]
      exact lookup_after_insert (dictSet st B.id []) B [] k B.id rest hmro
    · have hst : (register_base_type st B).1
          = dictSet st B.id (dictSet r k B.id) := by
        simp [register_base_type, hk, hd]
      rw [hst]
      exact lookup_after_insert st B r k B.id rest hmro
  · intro hk
    refine ⟨by simp [register_base_type, hk], fun hd => ?_⟩
    have hst : (register_base_type st B).1 = dictSet st B.id [] := by
      simp [register_base_type, hk, hd]
    rw [hst]
    exact dictGet_dictSet_self st B.id []
  · rcases hk : get_dispatch_key B.dkey true B.name with er | ko
    · rcases hd : dictGet st B.id with _ | r
      · refine register_base_type_second_call _ B [] ?_ ?_
        · have h1 : (register_base_type st B).1 = dictSet st B.id [] := by
            simp [register_base_type, hk, hd]
          rw [h1]
          exact dictGet_dictSet_self st B.id []
        · intro k2 hk2
          rw [hk] at hk2
          simp at hk2
      · refine register_base_type_second_call _ B r ?_ ?_
        · have h1 : (register_base_type st B).1 = st := by
            simp [register_base_type, hk, hd]
          rw [h1]
          exact hd
        · intro k2 hk2
          rw [hk] at hk2
          simp at hk2
    · rcases ko with _ | k'
      · rcases hd : dictGet st B.id with _ | r
        · refine register_base_type_second_call _ B [] ?_ ?_
          · have h1 : (register_base_type st B).1 = dictSet st B.id [] := by
              simp [register_base_type, hk, hd]
            rw [h1]
            exact dictGet_dictSet_self st B.id []
          · intro k2 hk2
            rw [hk] at hk2
            simp at hk2
        · refine register_base_type_second_call _ B r ?_ ?_
          · have h1 : (register_base_type st B).1 = st := by
              simp [register_base_type, hk, hd]
            rw [h1]
            exact hd
          · intro k2 hk2
            rw [hk] at hk2
            simp at hk2
      · rcases hd : dictGet st B.id with _ | r
        · refine register_base_type_second_call _ B (dictSet [] k' B.id) ?_ ?_
          · have h1 : (register_base_type st B).1
                = dictSet (dictSet st B.id []) B.id (dictSet [] k' B.id) := by
              simp [register_base_type, hk, hd]
            rw [h1]
            exact dictGet_dictSet_self _ _ _
          · intro k2 hk2
            rw [hk] at hk2
            simp at hk2
            subst hk2
            exact dictGet_dictSet_self _ _ _
        · refine register_base_type_second_call _ B (dictSet r k' B.id) ?_ ?_
          · have h1 : (register_base_type st B).1
                = dictSet st B.id (dictSet r k' B.id) := by
              simp [register_base_type, hk, hd]
            rw [h1]
            exact dictGet_dictSet_self _ _ _
          · intro k2 hk2
            rw [hk] at hk2
            simp at hk2
            subst hk2
            exact dictGet_dictSet_self _ _ _

/-- C2 witness: a fresh base with string key `"b"` (inserted into its own
subregistry and found by lookup, pass-through return, idempotent second
call), and a fresh base with no key (pass-through return, empty subregistry
created). -/
theorem C2_witness :
    (register_base_type [] ⟨0, "B", [0], some (.vstr "b")⟩).2
      = .ok ⟨0, "B", [0], some (.vstr "b")⟩ ∧
    lookup_type (register_base_type [] ⟨0, "B", [0], some (.vstr "b")⟩).1
      ⟨0, "B", [0], some (.vstr "b")⟩ "b" = .ok 0 ∧
    (register_base_type
        (register_base_type [] ⟨0, "B", [0], some (.vstr "b")⟩).1
        ⟨0, "B", [0], some (.vstr "b")⟩).1
      = (register_base_type [] ⟨0, "B", [0], some (.vstr "b")⟩).1 ∧
    (register_base_type [] ⟨1, "C", [1], none⟩).2 = .ok ⟨1, "C", [1], none⟩ ∧
    dictGet (register_base_type [] ⟨1, "C", [1], none⟩).1 1 = some [] := by
  have hB := C2_register_base_type_spec [] ⟨0, "B", [0], some (.vstr "b")⟩
    "b" [] (by decide)
  have hC := C2_register_base_type_spec [] ⟨1, "C", [1], none⟩ "b" [] (by decide)
  have hB1 := hB.1 (by decide)
  have hC1 := hC.2.1 (by decide)
  exact ⟨hB1.1, hB1.2, hB.2.2, hC1.1, hC1.2 (by decide)⟩

end PrefectDispatch

namespace PrefectFilters

/-- C7 (confirmed, against the spec-modelled validator): a composite filter
whose recognized constraint fields are all null/absent fails construction
with the `ValidationError` stating it must have at least one operator with
arguments, and a filter with exactly one constraint field set passes the
rule; concretely, the two-field `MyNewFilter` fails with no field set and
succeeds with either single field set. -/
theorem C7_at_least_one_operator (fields_set : List Bool) (x y : Int) :
    (fields_set.all (fun b => !b) = true →
      at_least_one_operator fields_set = .error (.validationError atLeastOneMsg)) ∧
    (fields_set.count true = 1 → at_least_one_operator fields_set = .ok ()) ∧
    mk_my_new_filter none none = .error (.validationError atLeastOneMsg) ∧
    mk_my_new_filter (some x) none = .ok ⟨some x, none⟩ ∧
    mk_my_new_filter none (some y) = .ok ⟨none, some y⟩ := by
  refine ⟨fun h => by simp [at_least_one_operator, h], fun hc => ?_, by decide,
    ?_, ?_⟩
  · have hall : ¬ fields_set.all (fun b => !b) = true := by
      intro hall
      rw [List.all_eq_true] at hall
      have hz : fields_set.count true = 0 := by
        rw [List.count_eq_zero]
        intro htrue
        have := hall true htrue
        simp at this
      omega
    simp [at_least_one_operator, hall]
  · simp [mk_my_new_filter, at_least_one_operator]
  · simp [mk_my_new_filter, at_least_one_operator]

/-- C7 witness: the rule at an all-unset and a single-set field list, and
`MyNewFilter` at concrete field values. -/
theorem C7_witness :
    at_least_one_operator [false, false]
      = .error (.validationError atLeastOneMsg) ∧
    at_least_one_operator [false, true] = .ok () ∧
    mk_my_new_filter none none = .error (.validationError atLeastOneMsg) ∧
    mk_my_new_filter (some 1) none = .ok ⟨some 1, none⟩ ∧
    mk_my_new_filter none (some 2) = .ok ⟨none, some 2⟩ := by
  have h1 := C7_at_least_one_operator [false, false] 1 2
  have h2 := C7_at_least_one_operator [false, true] 1 2
  exact ⟨h1.1 (by decide), h2.2.1 (by decide), h1.2.2.1, h1.2.2.2.1,
    h1.2.2.2.2⟩

/-- C8 counterexample: constructing a time filter with neither bound set
fails with a `ValidationError` (the at-least-one-operator rule) even though
the bounds are not both set with before earlier than after — so construction
does not fail *exactly* when both are set and before < after. -/
theorem C8_counterexample :
    mk_time_filter "F" none none = .error (.validationError atLeastOneMsg) ∧
    ((none : Option Int).isSome && (none : Option Int).isSome) = false := by
  decide

/-- C8 (amended): the ordering rule alone is exact — with both bounds set,
construction fails with the ordering `ValidationError` exactly when before is
strictly earlier than after, and succeeds on equal or reversed bounds; with
exactly one bound set construction succeeds; with no bound set it fails, but
with the at-least-one-operator `ValidationError` instead. -/
theorem C8_time_filter_cases (name : String) (before_ after_ : Option Int)
    (b a : Int) :
    (before_ = none → after_ = none →
      mk_time_filter name before_ after_
        = .error (.validationError atLeastOneMsg)) ∧
    (before_ = some b → after_ = some a → b < a →
      mk_time_filter name before_ after_ = .error (.validationError
        (s!"Cannot provide Prefect Filter {name} where before_ is less than after_"))) ∧
    (before_ = some b → after_ = some a → a ≤ b →
      mk_time_filter name before_ after_ = .ok ⟨before_, after_⟩) ∧
    (before_ = some b → after_ = none →
      mk_time_filter name before_ after_ = .ok ⟨before_, after_⟩) ∧
    (before_ = none → after_ = some a →
      mk_time_filter name before_ after_ = .ok ⟨before_, after_⟩) := by
  refine ⟨?_, ?_, ?_, ?_, ?_⟩
  · intro h1 h2
    subst h1
    subst h2
    simp [mk_time_filter, at_least_one_operator]
  · intro h1 h2 hlt
    subst h1
    subst h2
    simp [mk_time_filter, at_least_one_operator, hlt]
  · intro h1 h2 hle
    subst h1
    subst h2
    simp [mk_time_filter, at_least_one_operator, not_lt.mpr hle]
  · intro h1 h2
    subst h1
    subst h2
    simp [mk_time_filter, at_least_one_operator]
  · intro h1 h2
    subst h1
    subst h2
    simp [mk_time_filter, at_least_one_operator]

/-- C8 witness: equal bounds succeed, before one earlier than after fails
with the ordering message, before one later than after succeeds, and each
single bound succeeds. -/
theorem C8_witness :
    mk_time_filter "F" (some 0) (some 0) = .ok ⟨some 0, some 0⟩ ∧
    mk_time_filter "F" (some 0) (some 1) = .error (.validationError
      "Cannot provide Prefect Filter F where before_ is less than after_") ∧
    mk_time_filter "F" (some 1) (some 0) = .ok ⟨some 1, some 0⟩ ∧
    mk_time_filter "F" (some 5) none = .ok ⟨some 5, none⟩ ∧
    mk_time_filter "F" none (some 5) = .ok ⟨none, some 5⟩ := by
  have h00 := C8_time_filter_cases "F" (some 0) (some 0) 0 0
  have h01 := C8_time_filter_cases "F" (some 0) (some 1) 0 1
  have h10 := C8_time_filter_cases "F" (some 1) (some 0) 1 0
  have h5n := C8_time_filter_cases "F" (some 5) none 5 0
  have hn5 := C8_time_filter_cases "F" none (some 5) 0 5
  exact ⟨h00.2.2.1 rfl rfl (by omega), h01.2.1 rfl rfl (by omega),
    h10.2.2.1 rfl rfl (by omega), h5n.2.2.2.1 rfl rfl, hn5.2.2.2.2 rfl rfl⟩

/-- C9 (confirmed, against the spec-modelled validator): whenever the
inclusion-list operator and the is-null flag of a filter are simultaneously
set — the inclusion list may be empty — construction fails with the
exclusivity `ValidationError` naming the filter type and the operator. -/
theorem C9_inclusion_with_is_null_fails (name opName : String)
    (incl : Option (List String)) (is_null_ : Option Bool)
    (h1 : incl.isSome = true) (h2 : is_null_.isSome = true) :
    mk_inclusion_filter name opName incl is_null_
      = .error (.validationError
        (s!"Cannot provide Prefect Filter {name} {opName} with is_null_ = True")) := by
  rcases incl with _ | l
  · simp at h1
  · rcases is_null_ with _ | flag
    · simp at h2
    · simp [mk_inclusion_filter, at_least_one_operator]

/-- C9 witness: an `all_`-style filter with a non-empty list and an
`any_`-style filter with an *empty* list, both with the is-null flag set. -/
theorem C9_witness :
    mk_inclusion_filter "FlowFilterTags" "all_" (some ["foo"]) (some true)
      = .error (.validationError
        "Cannot provide Prefect Filter FlowFilterTags all_ with is_null_ = True") ∧
    mk_inclusion_filter "FlowRunFilterDeploymentIds" "any_" (some []) (some true)
      = .error (.validationError
        "Cannot provide Prefect Filter FlowRunFilterDeploymentIds any_ with is_null_ = True") :=
  ⟨C9_inclusion_with_is_null_fails "FlowFilterTags" "all_" (some ["foo"])
      (some true) (by decide) (by decide),
   C9_inclusion_with_is_null_fails "FlowRunFilterDeploymentIds" "any_" (some [])
      (some true) (by decide) (by decide)⟩

end PrefectFilters
